import Mathlib

/-!
Verification of `other_support_xml_gen`: a DOCX "Other Support" parser and
XML serializer.  Text is modelled as `List Char` (one Python `str` code
point per list element).  Namespace `Proto` embeds the parser pipeline of
`src/parser/from_docx/src.py` together with the schema it imports from
`src/parser/schema/src.py`; namespace `Pkg` embeds the newer package
modules `src/src/parser/to_xml.py` and `src/src/schema/dataclasses.py`.
-/

/-- Decidable equality for `Except`, used to evaluate the embedded
fallible functions on concrete inputs. -/
instance {ε α : Type} [DecidableEq ε] [DecidableEq α] :
    DecidableEq (Except ε α) := fun
  | .error e, .error f =>
    if h : e = f then isTrue (by subst h; rfl)
    else isFalse (by intro hh; cases hh; exact h rfl)
  | .error _, .ok _ => isFalse (by intro hh; cases hh)
  | .ok _, .error _ => isFalse (by intro hh; cases hh)
  | .ok x, .ok y =>
    if h : x = y then isTrue (by subst h; rfl)
    else isFalse (by intro hh; cases hh; exact h rfl)

/-- Python `\s` / `str.strip()` whitespace over ASCII. -/
def pyIsSpace (c : Char) : Bool :=
  c = ' ' || c = '\t' || c = '\n' || c = '\x0d' || c = '\x0b' || c = '\x0c'

/-- Strip characters satisfying `p` from both ends, as Python `str.strip`. -/
def stripBoth (p : Char → Bool) (s : List Char) : List Char :=
  ((s.dropWhile p).reverse.dropWhile p).reverse

/-- Python `str.strip()` with no arguments (whitespace). -/
def pyStrip (s : List Char) : List Char := stripBoth pyIsSpace s

/-- Python `str.strip(" *_")` used throughout the parser. -/
def stripStar (s : List Char) : List Char :=
  stripBoth (fun c => c = ' ' || c = '*' || c = '_') s

/-- ASCII lower-casing, matching Python `str.lower` on the inputs in scope. -/
def lowerC (c : Char) : Char := c.toLower

/-- Python `str.lower`. -/
def pyLower (s : List Char) : List Char := s.map lowerC

/-- Python `str.upper`. -/
def pyUpper (s : List Char) : List Char := s.map Char.toUpper

/-- Case-insensitive prefix test (re.IGNORECASE literal matching). -/
def ciPrefix : List Char → List Char → Bool
  | [], _ => true
  | _ :: _, [] => false
  | p :: ps, c :: cs => (lowerC p = lowerC c) && ciPrefix ps cs

/-- Case-sensitive prefix test. -/
def litPrefix : List Char → List Char → Bool
  | [], _ => true
  | _ :: _, [] => false
  | p :: ps, c :: cs => (p = c) && litPrefix ps cs

/-- Does `pat` occur as a contiguous substring of `hay` (Python `in`)? -/
def containsSub (hay pat : List Char) : Bool :=
  match hay with
  | [] => pat.isEmpty
  | _ :: rest => litPrefix pat hay || containsSub rest pat

/-- Python `str.replace(pat, "")`: delete all non-overlapping occurrences,
left to right.  `fuel` bounds recursion; callers pass `s.length`. -/
def removeAllAux (pat : List Char) : Nat → List Char → List Char
  | 0, s => s
  | _ + 1, [] => []
  | fuel + 1, c :: rest =>
    if pat ≠ [] && litPrefix pat (c :: rest) then
      removeAllAux pat fuel (List.drop (pat.length - 1) rest)
    else
      c :: removeAllAux pat fuel rest

/-- Python `s.replace(pat, "")`. -/
def removeAll (pat s : List Char) : List Char := removeAllAux pat s.length s

/-- Python slice `s[a:b]`. -/
def sliceL (s : List Char) (a b : Nat) : List Char := (s.drop a).take (b - a)

/-- Digit test. -/
def isDig (c : Char) : Bool := '0' ≤ c && c ≤ '9'

/-- Digit value of a digit character. -/
def digVal (c : Char) : Nat := c.toNat - '0'.toNat

/-- Value of a digit string (assumed all digits). -/
def digitsVal (s : List Char) : Nat := s.foldl (fun a c => 10 * a + digVal c) 0

/-- Zero-padded decimal rendering with (at least) `w` digits, as used by
`strftime` field formatting. -/
def padNum (w n : Nat) : List Char :=
  let d := (Nat.toDigits 10 n)
  (List.replicate (w - d.length) '0') ++ d

namespace Proto

/-! ## `src/parser/from_docx/src.py` — date handling

`DATE_FORMATS = ["%m/%d/%Y", "%m/%d/%y", "%m/%Y", "%m/%y"]`.  The
`strptime` component languages follow CPython `_strptime`: `%m` is
`1[0-2]|0[1-9]|[1-9]`, `%d` is `3[01]|[12]\d|0[1-9]|[1-9]`, `%Y` is four
digits, `%y` two digits (00-68 maps to 2000s, 69-99 to 1900s); the whole
string must be consumed, and the resulting date must be constructible
(year at least 1, day within the month's length). -/

/-- `%m` component: full-string match and value. -/
def mOK : List Char → Option Nat
  | [c] => if isDig c && c ≠ '0' then some (digVal c) else none
  | [a, b] =>
    if a = '1' && (b = '0' || b = '1' || b = '2') then some (10 + digVal b)
    else if a = '0' && isDig b && b ≠ '0' then some (digVal b)
    else none
  | _ => none

/-- `%d` component: full-string match and value. -/
def dOK : List Char → Option Nat
  | [c] => if isDig c && c ≠ '0' then some (digVal c) else none
  | [a, b] =>
    if a = '3' && (b = '0' || b = '1') then some (30 + digVal b)
    else if (a = '1' || a = '2') && isDig b then some (10 * digVal a + digVal b)
    else if a = '0' && isDig b && b ≠ '0' then some (digVal b)
    else none
  | _ => none

/-- `%Y` component: exactly four digits. -/
def YOK (s : List Char) : Option Nat :=
  if s.length = 4 && s.all isDig then some (digitsVal s) else none

/-- `%y` component: exactly two digits, CPython century mapping. -/
def yOK (s : List Char) : Option Nat :=
  if s.length = 2 && s.all isDig then
    let v := digitsVal s
    some (if v ≤ 68 then 2000 + v else 1900 + v)
  else none

/-- Gregorian leap year, as `datetime` uses. -/
def isLeap (y : Nat) : Bool := y % 4 = 0 && (y % 100 ≠ 0 || y % 400 = 0)

/-- Days in a month, as `datetime` validation uses. -/
def daysInMonth (y m : Nat) : Nat :=
  if m = 2 then (if isLeap y then 29 else 28)
  else if m = 4 || m = 6 || m = 9 || m = 11 then 30
  else 31

/-- `datetime(y, m, d)` constructibility (`MINYEAR = 1`). -/
def dateValid (y m d : Nat) : Bool := 1 ≤ y && 1 ≤ d && d ≤ daysInMonth y m

/-- `datetime.strptime(s, "%m/%d/%Y")` (or `%y`), as year/month/day. -/
def strptimeMDY (yParse : List Char → Option Nat) (s : List Char) :
    Option (Nat × Nat × Nat) :=
  match s.splitOn '/' with
  | [a, b, c] =>
    match mOK a, dOK b, yParse c with
    | some m, some d, some y => if dateValid y m d then some (y, m, d) else none
    | _, _, _ => none
  | _ => none

/-- `datetime.strptime(s, "%m/%Y")` (or `%y`); the day defaults to 1. -/
def strptimeMY (yParse : List Char → Option Nat) (s : List Char) :
    Option (Nat × Nat) :=
  match s.splitOn '/' with
  | [a, b] =>
    match mOK a, yParse b with
    | some m, some y => if dateValid y m 1 then some (y, m) else none
    | _, _ => none
  | _ => none

/-- `strftime("%Y")` does not zero-pad the year; `%m`/`%d` pad to two. -/
def yearStr (y : Nat) : List Char := Nat.toDigits 10 y

/-- `dt.strftime("%Y-%m-%d")`. -/
def fmtYmd (y m d : Nat) : List Char :=
  yearStr y ++ '-' :: padNum 2 m ++ '-' :: padNum 2 d

/-- `dt.strftime("%Y-%m-%01")`: `%01` is not a valid directive, and glibc
`strftime` (the platform the program runs on) copies it through verbatim,
so the rendered day part is the literal three characters `%01`. -/
def fmtYmPct01 (y m : Nat) : List Char :=
  yearStr y ++ '-' :: padNum 2 m ++ '-' :: '%' :: '0' :: '1' :: []

/-- `parse_date_str` of `src/parser/from_docx/src.py` lines 121-130:
strip `" *_"`, try the four formats in order, render day-granular hits
with `"%Y-%m-%d"` and month-only hits with `"%Y-%m-%01"`, else `""`. -/
def parse_date_str (s : List Char) : List Char :=
  if s = [] then []
  else
    let t := stripStar s
    match strptimeMDY YOK t with
    | some (y, m, d) => fmtYmd y m d
    | none =>
      match strptimeMDY yOK t with
      | some (y, m, d) => fmtYmd y m d
      | none =>
        match strptimeMY YOK t with
        | some (y, m) => fmtYmPct01 y m
        | none =>
          match strptimeMY yOK t with
          | some (y, m) => fmtYmPct01 y m
          | none => []

/-! ## `DATE_EXTRACTOR` (line 23-25)

`(\d{1,2}/\d{1,2}/\d{2,4}|\d{1,2}/\d{2,4})\s*[-â€“]\s*(...)` — the
separator character class is the literal three mojibake characters of the
source file plus the hyphen (the en dash itself is already translated to
`-` by `clean_text` before extraction). -/

/-- Candidate digit-run lengths at the head of `s`, in the greedy
backtracking order the regex explores (`ks` descending). -/
def dLens (ks : List Nat) (s : List Char) : List Nat :=
  ks.filter (fun k => k ≤ (s.takeWhile isDig).length)

/-- Match lengths at the head of `s` for one side of the range
(`\d{1,2}/\d{1,2}/\d{2,4}` alternatives before `\d{1,2}/\d{2,4}`), in
regex preference order. -/
def altLens (s : List Char) : List Nat :=
  let aOpts := (dLens [2, 1] s).flatMap (fun k1 =>
    match s.drop k1 with
    | '/' :: s2 =>
      (dLens [2, 1] s2).flatMap (fun k2 =>
        match s2.drop k2 with
        | '/' :: s4 => (dLens [4, 3, 2] s4).map (fun k3 => k1 + 1 + k2 + 1 + k3)
        | _ => [])
    | _ => [])
  let bOpts := (dLens [2, 1] s).flatMap (fun k1 =>
    match s.drop k1 with
    | '/' :: s2 => (dLens [4, 3, 2] s2).map (fun k3 => k1 + 1 + k3)
    | _ => [])
  aOpts ++ bOpts

/-- The separator class `[-â€“]` of the source. -/
def dashClass (c : Char) : Bool := c = '-' || c = 'â' || c = '€' || c = '“'

/-- First successful result of `f` over a list. -/
def pickFirst (f : α → Option β) : List α → Option β
  | [] => none
  | a :: rest => match f a with
    | some b => some b
    | none => pickFirst f rest

/-- Try the whole range pattern anchored at the head of `s`, returning the
two captured groups. -/
def dateRangeAt (s : List Char) : Option (List Char × List Char) :=
  pickFirst (fun len1 =>
    let r := s.drop len1
    let r1 := r.drop (r.takeWhile pyIsSpace).length
    match r1 with
    | c :: r2 =>
      if dashClass c then
        let r3 := r2.drop (r2.takeWhile pyIsSpace).length
        match altLens r3 with
        | len2 :: _ => some (s.take len1, r3.take len2)
        | [] => none
      else none
    | [] => none) (altLens s)

/-- `DATE_EXTRACTOR.search`: leftmost match of the range pattern. -/
def searchDateRange : List Char → Option (List Char × List Char)
  | [] => none
  | c :: rest =>
    match dateRangeAt (c :: rest) with
    | some p => some p
    | none => searchDateRange rest

/-- `extract_dates` (lines 133-137): parse both groups of the first
date-range match, else two empty strings. -/
def extract_dates (text : List Char) : List Char × List Char :=
  match searchDateRange text with
  | some (g1, g2) => (parse_date_str g1, parse_date_str g2)
  | none => ([], [])

/-! ## `FIELD_LABELS` (lines 27-42) and the paragraph segmenter -/

/-- The non-positional field labels, in the dict's iteration order
(`section_header` and `name_id` are handled separately by the caller). -/
inductive LabelKey where
  | project_title | major_goals | status | role | project_number
  | pd_pi | source | place | dates | amount | overlap
  | person_months_stopper
deriving DecidableEq, Repr

/-- Case-insensitive literal followed by `\s*`: the shape of most label
patterns.  Returns the match length at the head of `s`. -/
def tryLiteralWs (lit : List Char) (s : List Char) : Option Nat :=
  if ciPrefix lit s then
    some (lit.length + ((s.drop lit.length).takeWhile pyIsSpace).length)
  else none

/-- Earliest case-insensitive occurrence of `pat`, not crossing a newline
(`.` in the lazy gaps of `Project.*?Date.*?:` does not match `\n`). -/
def findCINoNl (pat : List Char) : List Char → Option Nat
  | [] => none
  | c :: rest =>
    if ciPrefix pat (c :: rest) then some 0
    else if c = '\n' then none
    else (findCINoNl pat rest).map (· + 1)

/-- `Project.*?Date.*?:` anchored at the head of `s` (lazy gaps). -/
def tryDates (s : List Char) : Option Nat :=
  if ciPrefix "project".toList s then
    match findCINoNl "date".toList (s.drop 7) with
    | some k =>
      match findCINoNl ":".toList (s.drop (7 + k + 4)) with
      | some j => some (7 + k + 4 + j + 1)
      | none => none
    | none => none
  else none

/-- `Total Award Amount.*?:` anchored at the head of `s`. -/
def tryAmount (s : List Char) : Option Nat :=
  if ciPrefix "total award amount".toList s then
    match findCINoNl ":".toList (s.drop 18) with
    | some j => some (18 + j + 1)
    | none => none
  else none

/-- `\*?Overlap\s*:\s*` anchored at the head of `s`. -/
def tryOverlap (s : List Char) : Option Nat :=
  let star := if s.head? = some '*' then 1 else 0
  let s1 := s.drop star
  if ciPrefix "overlap".toList s1 then
    let w1 := ((s1.drop 7).takeWhile pyIsSpace).length
    match s1.drop (7 + w1) with
    | ':' :: r2 => some (star + 7 + w1 + 1 + (r2.takeWhile pyIsSpace).length)
    | _ => none
  else none

/-- `(?:Primary )?Place of Performance:\s*` anchored at the head. -/
def tryPlace (s : List Char) : Option Nat :=
  match tryLiteralWs "primary place of performance:".toList s with
  | some n => some n
  | none => tryLiteralWs "place of performance:".toList s

/-- `Person\s*Months` anchored at the head of `s`. -/
def tryPersonMonths (s : List Char) : Option Nat :=
  if ciPrefix "person".toList s then
    let w := ((s.drop 6).takeWhile pyIsSpace).length
    if ciPrefix "months".toList (s.drop (6 + w)) then some (6 + w + 6) else none
  else none

/-- The matcher for one label key, anchored at the head of a suffix. -/
def tryLabel : LabelKey → List Char → Option Nat
  | .project_title => tryLiteralWs "title:".toList
  | .major_goals => tryLiteralWs "major goals:".toList
  | .status => tryLiteralWs "status of support:".toList
  | .role => tryLiteralWs "role:".toList
  | .project_number => tryLiteralWs "project number:".toList
  | .pd_pi => tryLiteralWs "name of pd/pi:".toList
  | .source => tryLiteralWs "source of support:".toList
  | .place => tryPlace
  | .dates => tryDates
  | .amount => tryAmount
  | .overlap => tryOverlap
  | .person_months_stopper => tryPersonMonths

/-- One match span, as `finditer` reports it. -/
structure MatchSpan where
  start : Nat
  stop : Nat
  key : LabelKey
deriving DecidableEq, Repr

/-- `pattern.finditer(text)`: non-overlapping matches left to right.
`fuel` bounds the scan; callers pass `s.length`. -/
def finditer (k : LabelKey) : Nat → Nat → List Char → List MatchSpan
  | 0, _, _ => []
  | _ + 1, _, [] => []
  | fuel + 1, pos, c :: rest =>
    match tryLabel k (c :: rest) with
    | some len => ⟨pos, pos + len, k⟩ :: finditer k fuel (pos + len) ((c :: rest).drop len)
    | none => finditer k fuel (pos + 1) rest

/-- Stable insertion (equal starts keep earlier elements first). -/
def insertByStart (m : MatchSpan) : List MatchSpan → List MatchSpan
  | [] => [m]
  | x :: xs => if x.start ≤ m.start then x :: insertByStart m xs else m :: x :: xs

/-- All labels in `FIELD_LABELS` iteration order. -/
def allLabels : List LabelKey :=
  [.project_title, .major_goals, .status, .role, .project_number,
   .pd_pi, .source, .place, .dates, .amount, .overlap,
   .person_months_stopper]

/-- `_process_paragraph` steps 1-2: collect every label match and sort
stably by start offset. -/
def findLabelMatches (text : List Char) : List MatchSpan :=
  let raw := allLabels.flatMap (fun k => finditer k text.length 0 text)
  raw.foldl (fun acc m => insertByStart m acc) []

/-! ## Builder state (`DEFAULT_SUPPORT_TEMPLATE`, lines 51-65) -/

/-- The mutable builder dict: one slot per template key; `commitment`
holds raw `(year, effort)` string pairs. -/
structure Builder where
  projecttitle : List Char
  awardnumber : List Char
  supportsource : List Char
  location : List Char
  contributiontype : List Char
  awardamount : List Char
  inkinddescription : List Char
  overallobjectives : List Char
  potentialoverlap : List Char
  startdate : List Char
  enddate : List Char
  supporttype : List Char
  commitment : List (List Char × List Char)
deriving DecidableEq, Repr

/-- `_reset_builder` (lines 199-205): template defaults with the
section-derived `contributiontype` / `supporttype`. -/
def reset_builder (current_section : List Char) : Builder where
  projecttitle := []
  awardnumber := []
  supportsource := []
  location := []
  contributiontype :=
    if current_section = "IN-KIND".toList then "inkind".toList else "award".toList
  awardamount := []
  inkinddescription := []
  overallobjectives := []
  potentialoverlap := "None".toList
  startdate := []
  enddate := []
  supporttype :=
    if current_section = "PENDING".toList then "pending".toList else "current".toList
  commitment := []

/-- `set_val` inside `_update_field` (lines 159-164): append with a
single-space join when requested and the field already has content,
otherwise overwrite. -/
def set_val (append : Bool) (current t : List Char) : List Char :=
  if append && current ≠ [] then current ++ ' ' :: t else t

/-- `_update_field` (lines 152-180): strip the text, ignore it when blank,
then dispatch on the label key; `dates` parses a range instead of storing
text (and does nothing for continuation text); unmapped keys are no-ops. -/
def update_field (b : Builder) (raw_key : LabelKey) (text : List Char)
    (append : Bool) : Builder :=
  let t := pyStrip text
  if t = [] then b
  else
    match raw_key with
    | .project_title => { b with projecttitle := set_val append b.projecttitle t }
    | .project_number => { b with awardnumber := set_val append b.awardnumber t }
    | .source => { b with supportsource := set_val append b.supportsource t }
    | .place => { b with location := set_val append b.location t }
    | .amount => { b with awardamount := set_val append b.awardamount t }
    | .major_goals =>
      { b with overallobjectives := set_val append b.overallobjectives t }
    | .overlap =>
      { b with potentialoverlap := set_val append b.potentialoverlap t }
    | .dates =>
      if append then b
      else
        let se := extract_dates t
        { b with startdate := se.1, enddate := se.2 }
    | _ => b

/-- CASE C loop of `_process_paragraph` (lines 258-267): each match's
value runs to the next match's start (or end of text), is trimmed of
`" *_"`, and is stored with `append = False`; the last key is returned. -/
def processMatches (text : List Char) (b : Builder) :
    List MatchSpan → Builder × Option LabelKey
  | [] => (b, none)
  | [m] =>
    (update_field b m.key (stripStar (sliceL text m.stop text.length)) false,
     some m.key)
  | m :: m2 :: rest =>
    let b' := update_field b m.key (stripStar (sliceL text m.stop m2.start)) false
    processMatches text b' (m2 :: rest)

/-- `_process_paragraph` (lines 232-267): no label means continuation
text for the previously active field; text before the first label is also
continuation; labelled spans are then processed in order. -/
def process_paragraph (text : List Char) (b : Builder)
    (last_field_key : Option LabelKey) : Builder × Option LabelKey :=
  match findLabelMatches text with
  | [] =>
    match last_field_key with
    | some k => (update_field b k text true, last_field_key)
    | none => (b, none)
  | m0 :: rest =>
    let b1 :=
      if m0.start > 0 then
        let pre := stripStar (sliceL text 0 m0.start)
        match last_field_key with
        | some k => if pre ≠ [] then update_field b k pre true else b
        | none => b
      else b
    processMatches text b1 (m0 :: rest)

/-- `YEAR_EXTRACTOR.search` (line 26): first `\b(20\d{2})\b` match.
`prev` carries the character before the scan position for the left word
boundary. -/
def yearSearchAux (prev : Option Char) : List Char → Option (List Char)
  | '2' :: '0' :: d1 :: d2 :: rest =>
    if isDig d1 && isDig d2
        && (match prev with | none => true | some p => !(p.isAlphanum || p = '_'))
        && (match rest with | [] => true | r :: _ => !(r.isAlphanum || r = '_')) then
      some ['2', '0', d1, d2]
    else
      yearSearchAux (some '2') ('0' :: d1 :: d2 :: rest)
  | c :: rest => yearSearchAux (some c) rest
  | [] => none

/-- `YEAR_EXTRACTOR.search(s)`, returning the captured year. -/
def year_extract (s : List Char) : Option (List Char) := yearSearchAux none s

/-- `_process_table` (lines 270-288): skip the first row when its joined
lower-cased cell text mentions `year` or `month`; a later row with at
least two cells contributes `(year, effort)` when the `20\d{2}` search
succeeds on cell 0 and the cleaned cell 1 is non-empty. -/
def process_table (rows : List (List (List Char))) (b : Builder) : Builder :=
  let start1 :=
    match rows with
    | [] => false
    | r0 :: _ =>
      let first_row_text := r0.foldr (fun c acc => pyLower c ++ acc) []
      containsSub first_row_text "year".toList
        || containsSub first_row_text "month".toList
  let body := if start1 then rows.drop 1 else rows
  let found := body.foldl (fun acc row =>
    match row.map pyStrip with
    | c0 :: c1 :: _ =>
      let year := year_extract c0
      let effort := pyStrip (removeAll "calendar".toList (pyLower c1))
      match year with
      | some y => if effort ≠ [] then acc ++ [(y, effort)] else acc
      | none => acc
    | _ => acc) []
  if found ≠ [] then { b with commitment := b.commitment ++ found } else b

/-! ## Schema imported by the prototype parser
(`src/parser/schema/src.py`) and Python `float()` -/

/-- Result of Python `float(str)`: a finite decimal value (modelled
exactly as a rational; binary rounding is not modelled), an infinity, or
a NaN. -/
inductive PyFloat where
  | finite (q : ℚ)
  | infinity (neg : Bool)
  | nan
deriving DecidableEq, Repr

/-- A digit part of a Python float literal: digits optionally separated
by single underscores.  Returns value, digit count and the rest. -/
def digitPartAux (v cnt : Nat) : List Char → Nat × Nat × List Char
  | '_' :: d :: rest =>
    if isDig d then digitPartAux (10 * v + digVal d) (cnt + 1) rest
    else (v, cnt, '_' :: d :: rest)
  | d :: rest =>
    if isDig d then digitPartAux (10 * v + digVal d) (cnt + 1) rest
    else (v, cnt, d :: rest)
  | [] => (v, cnt, [])

/-- A digit part starting at the head of `s`, if any. -/
def digitPart (s : List Char) : Option (Nat × Nat × List Char) :=
  match s with
  | d :: rest => if isDig d then some (digitPartAux (digVal d) 1 rest) else none
  | [] => none

/-- Optional exponent and end of string: `[eE][+-]?digits`. -/
def floatExp (q : ℚ) : List Char → Option ℚ
  | [] => some q
  | e :: r =>
    if e = 'e' || e = 'E' then
      let sgn : ℤ := if r.head? = some '-' then -1 else 1
      let r1 := if r.head? = some '-' || r.head? = some '+' then r.drop 1 else r
      match digitPart r1 with
      | some (ev, _, r2) =>
        if r2 = [] then some (q * (10 : ℚ) ^ (sgn * ev)) else none
      | none => none
    else none

/-- The numeric body of a float literal: `digits[.digits][exp]`,
`digits.[exp]` or `.digits[exp]`. -/
def floatBody (s : List Char) : Option ℚ :=
  match digitPart s with
  | some (iv, _, r1) =>
    match r1 with
    | '.' :: r2 =>
      match digitPart r2 with
      | some (fv, fc, r3) => floatExp ((iv : ℚ) + (fv : ℚ) / (10 : ℚ) ^ fc) r3
      | none => floatExp (iv : ℚ) r2
    | _ => floatExp (iv : ℚ) r1
  | none =>
    match s with
    | '.' :: r2 =>
      match digitPart r2 with
      | some (fv, fc, r3) => floatExp ((fv : ℚ) / (10 : ℚ) ^ fc) r3
      | none => none
    | _ => none

/-- Case-insensitive full-string equality. -/
def ciEq (a b : List Char) : Bool := a.length = b.length && ciPrefix a b

/-- Python `float(s)`: strip whitespace, optional sign, then either an
infinity/NaN keyword or a decimal literal; anything else raises
`ValueError`. -/
def pyFloatParse (s : List Char) : Option PyFloat :=
  let t := pyStrip s
  let neg := t.head? = some '-'
  let t1 := if t.head? = some '-' || t.head? = some '+' then t.drop 1 else t
  if ciEq t1 "inf".toList || ciEq t1 "infinity".toList then
    some (.infinity neg)
  else if ciEq t1 "nan".toList then some .nan
  else
    match floatBody t1 with
    | some q => some (.finite (if neg then -q else q))
    | none => none

/-- The single character `'` (used by the modelled `repr`). -/
def squote : Char := Char.ofNat 39

/-- Modelled Python `repr` of a string without quotes or escapes in it:
the string wrapped in single quotes. -/
def pyRepr (s : List Char) : List Char := squote :: s ++ [squote]

/-- The Python exceptions the embedded prototype code can raise:
`float()` and the `Name` validator raise the builtin `ValueError`. -/
inductive PyErr where
  | valueError (msg : List Char)
deriving DecidableEq, Repr

/-- `ValueError` message of a failed `float(s)` call. -/
def floatErrMsg (s : List Char) : List Char :=
  "could not convert string to float: ".toList ++ pyRepr s

/-- `PersonMonth` (`src/parser/schema/src.py` lines 111-122). -/
structure PersonMonth where
  year : List Char
  amount : PyFloat
deriving DecidableEq, Repr

/-- `Support` (`src/parser/schema/src.py` lines 125-172), after
`__post_init__` has run. -/
structure Support where
  projecttitle : List Char
  awardnumber : List Char
  supportsource : List Char
  location : List Char
  contributiontype : List Char
  awardamount : List Char
  inkinddescription : List Char
  overallobjectives : List Char
  potentialoverlap : List Char
  startdate : List Char
  enddate : List Char
  supporttype : List Char
  commitment : List PersonMonth
deriving DecidableEq, Repr

/-- `Support.__post_init__` together with `_clean_amount`, `_clean_enums`
and `_clean_inkind` (prototype schema, lines 141-172): truncate the
bounded strings, keep digits only in the amount, default the enums, and
derive `inkinddescription` from the (already truncated) title for in-kind
records while blanking it for awards. -/
def mkSupport (b : Builder) (coms : List PersonMonth) : Support :=
  let projecttitle := b.projecttitle.take 300
  let contributiontype :=
    if b.contributiontype = "award".toList || b.contributiontype = "inkind".toList
    then b.contributiontype else "award".toList
  let inkinddescription :=
    if contributiontype = "inkind".toList then
      if b.inkinddescription = [] && projecttitle ≠ [] then projecttitle.take 500
      else b.inkinddescription
    else []
  { projecttitle := projecttitle
    awardnumber := b.awardnumber.take 50
    supportsource := b.supportsource.take 60
    location := b.location.take 60
    contributiontype := contributiontype
    awardamount := (b.awardamount.filter isDig).take 13
    inkinddescription := inkinddescription
    overallobjectives := b.overallobjectives
    potentialoverlap := b.potentialoverlap.take 5000
    startdate := b.startdate
    enddate := b.enddate
    supporttype :=
      if b.supporttype = "current".toList || b.supporttype = "pending".toList
      then b.supporttype else "current".toList
    commitment := coms }

/-- The list comprehension of `_finalize_support`: convert each raw
`(year, effort)` pair with `float(effort)`, left to right, stopping at
the first unparsable effort with the builtin `ValueError` of `float`. -/
def buildComs : List (List Char × List Char) → Except PyErr (List PersonMonth)
  | [] => .ok []
  | p :: rest =>
    match pyFloatParse p.2 with
    | some f =>
      match buildComs rest with
      | .ok cs => .ok (⟨p.1, f⟩ :: cs)
      | .error e => .error e
    | none => .error (.valueError (floatErrMsg p.2))

/-- `_finalize_support` (`src/parser/from_docx/src.py` lines 183-196):
convert the raw commitment pairs, then build the `Support` (running the
`__post_init__` cleaning). -/
def finalize_support (b : Builder) : Except PyErr Support :=
  match buildComs b.commitment with
  | .ok coms => .ok (mkSupport b coms)
  | .error e => .error e

/-! ## Name handling, text cleaning, and the section state machine -/

/-- `TRANSLATION_TABLE` (lines 44-49): en/em dash to `-`, smart quotes
to `"`. -/
def translateChar (c : Char) : Char :=
  if c = '–' || c = '—' then '-'
  else if c = '“' || c = '”' then '"' else c

/-- `clean_text` (lines 116-118): `strip()`, translate, `strip(" *_")`;
a falsy input short-circuits to the empty string. -/
def clean_text (s : List Char) : List Char :=
  if s = [] then [] else stripStar ((pyStrip s).map translateChar)

/-- Earliest case-insensitive occurrence of `pat` (plain `re.search` of a
literal). -/
def findCI (pat : List Char) : List Char → Option Nat
  | [] => none
  | c :: rest =>
    if ciPrefix pat (c :: rest) then some 0 else (findCI pat rest).map (· + 1)

/-- Lazy group 1 of the `name_id` pattern: the shortest non-empty prefix
of `r` whose remainder is either the end of the string or a
`\s+Commons ID:.*` suffix. -/
def lazyNameSplit (acc : List Char) : List Char → List Char
  | [] => acc.reverse
  | c :: rest =>
    let w := (rest.takeWhile pyIsSpace).length
    if w ≥ 1 && ciPrefix "commons id:".toList (rest.drop w) then (c :: acc).reverse
    else lazyNameSplit (c :: acc) rest

/-- `FIELD_LABELS["name_id"].search`:
`Name of Individual:\s*(.+?)(?:\s+Commons ID:.*)?$` — the captured
group 1, if the pattern matches (single-line texts modelled; `.` and the
anchors behave plainly there). -/
def nameIdGroup (text : List Char) : Option (List Char) :=
  match findCI "name of individual:".toList text with
  | none => none
  | some p =>
    let r0 := text.drop (p + 19)
    let w := (r0.takeWhile pyIsSpace).length
    let r := r0.drop w
    if r ≠ [] then some (lazyNameSplit [] r)
    else if w > 0 then some (r0.take w |>.drop (w - 1))
    else none

/-- The `name_parts` accumulator dict. -/
structure NameParts where
  firstname : List Char
  middlename : List Char
  lastname : List Char
deriving DecidableEq, Repr

/-- Python `str.split()` with no arguments: split on whitespace runs,
dropping empty pieces.  `fuel` bounds recursion; callers pass
`s.length + 1`. -/
def pySplitAux : Nat → List Char → List (List Char)
  | 0, _ => []
  | fuel + 1, s =>
    let s1 := s.dropWhile pyIsSpace
    match s1 with
    | [] => []
    | _ =>
      (s1.takeWhile (fun c => !pyIsSpace c))
        :: pySplitAux fuel (s1.dropWhile (fun c => !pyIsSpace c))

/-- Python `str.split()`. -/
def pySplit (s : List Char) : List (List Char) := pySplitAux (s.length + 1) s

/-- `_parse_name` (lines 208-229): update `name_parts` when the name
label matches; comma form splits last/first(+middle joined by spaces),
whitespace form takes first and last token with middles concatenated with
no separator (`"".join`). -/
def parse_name (text : List Char) (np : NameParts) : Option NameParts :=
  match nameIdGroup text with
  | none => none
  | some g =>
    let full_name := stripStar g
    if full_name.contains ',' then
      let left := full_name.takeWhile (· ≠ ',')
      let right := (full_name.dropWhile (· ≠ ',')).drop 1
      let np1 := { np with lastname := pyStrip left }
      match pySplit (pyStrip right) with
      | [] => some np1
      | f :: ms =>
        some { np1 with
          firstname := f
          middlename := if ms ≠ [] then List.intercalate [' '] ms else [] }
    else
      match full_name.splitOn ' ' with
      | [a, b] => some { np with firstname := a, lastname := b }
      | [] => some np
      | p0 :: restPs =>
        some { np with
          firstname := p0
          lastname := (p0 :: restPs).getLastD []
          middlename := ((p0 :: restPs).dropLast.drop 1).foldr (· ++ ·) [] }

/-- `FIELD_LABELS["section_header"].match`: the text starts with
`ACTIVE`, `PENDING` or `IN-KIND`, case-insensitively. -/
def section_header_match (t : List Char) : Bool :=
  ciPrefix "active".toList t || ciPrefix "pending".toList t
    || ciPrefix "in-kind".toList t

/-- `FIELD_LABELS["project_title"].search`: a `Title:` label occurs
anywhere in the text. -/
def title_found (t : List Char) : Bool := (findCI "title:".toList t).isSome

/-- `Name` (`src/parser/schema/src.py` lines 53-65): construction fails
with `ValueError` when the first or last name is blank. -/
structure Name where
  firstname : List Char
  middlename : List Char
  lastname : List Char
deriving DecidableEq, Repr

/-- `Name(**name_parts)` with its `__post_init__` validation. -/
def mkName (np : NameParts) : Except PyErr Name :=
  if np.firstname = [] then .error (.valueError "No firstname provided.".toList)
  else if np.lastname = [] then .error (.valueError "No lastname provided.".toList)
  else .ok ⟨np.firstname, np.middlename, np.lastname⟩

/-- `Identification` wraps one `Name`. -/
structure Identification where
  name : Name
deriving DecidableEq, Repr

/-- `SciENcvProfile`: the parser leaves `employment` empty, so its
elements are irrelevant here and the list is modelled over `Unit`. -/
structure SciENcvProfile where
  identification : Identification
  employment : List Unit
  funding : List Support
deriving DecidableEq, Repr

/-- A document block: paragraph text or table rows of cell texts. -/
inductive Block where
  | para (text : List Char)
  | table (rows : List (List (List Char)))
deriving DecidableEq, Repr

/-- The loop state of `parse_docx` (lines 300-307). -/
structure PState where
  name_parts : NameParts
  supports : List Support
  current_section : List Char
  builder : Builder
  builder_active : Bool
  last_field_key : Option LabelKey
deriving DecidableEq, Repr

/-- The initial state: section `ACTIVE`, inactive fresh builder. -/
def initState : PState where
  name_parts := ⟨[], [], []⟩
  supports := []
  current_section := "ACTIVE".toList
  builder := reset_builder "ACTIVE".toList
  builder_active := false
  last_field_key := none

/-- One iteration of the parsing loop (lines 310-353): names, section
headers and new-project detection on paragraphs, commitment extraction on
tables; finalization errors abort the parse. -/
def stepBlock (st : PState) : Block → Except PyErr PState
  | .table rows =>
    .ok (if st.builder_active
      then { st with builder := process_table rows st.builder } else st)
  | .para raw =>
    let text := clean_text raw
    if text = [] then .ok st
    else
      match parse_name text st.name_parts with
      | some np => .ok { st with name_parts := np }
      | none =>
        if section_header_match text then do
          let sts ←
            if st.builder_active then do
              let s ← finalize_support st.builder
              pure (st.supports ++ [s])
            else pure st.supports
          let header := pyUpper text
          let sect :=
            if containsSub header "PENDING".toList then "PENDING".toList
            else if containsSub header "IN-KIND".toList then "IN-KIND".toList
            else "ACTIVE".toList
          pure { st with
            supports := sts
            current_section := sect
            builder := reset_builder sect
            builder_active := false }
        else do
          let st1 ←
            if title_found text then do
              let sts ←
                if st.builder_active then do
                  let s ← finalize_support st.builder
                  pure (st.supports ++ [s])
                else pure st.supports
              pure { st with
                supports := sts
                builder := reset_builder st.current_section
                builder_active := true
                last_field_key := none }
            else pure st
          if !st1.builder_active then pure st1
          else
            let bk := process_paragraph text st1.builder st1.last_field_key
            pure { st1 with builder := bk.1, last_field_key := bk.2 }

/-- The parsing loop over the block stream, block by block; an error in
any iteration aborts the loop. -/
def runBlocks (st : PState) : List Block → Except PyErr PState
  | [] => .ok st
  | b :: bs =>
    match stepBlock st b with
    | .ok st2 => runBlocks st2 bs
    | .error e => .error e

/-- `parse_docx` (lines 291-363) on an already-loaded block stream:
run the loop, flush the final active builder, and assemble the profile
(whose `Name` validation can itself fail). -/
def parse_docx (blocks : List Block) : Except PyErr SciENcvProfile := do
  let st ← runBlocks initState blocks
  let sts ←
    if st.builder_active then do
      let s ← finalize_support st.builder
      pure (st.supports ++ [s])
    else pure st.supports
  let nm ← mkName st.name_parts
  pure ⟨⟨nm⟩, [], sts⟩

end Proto

namespace Pkg

/-! ## `src/src/parser/to_xml.py` and `src/src/schema/dataclasses.py`

Slotted dataclass instances are modelled as trees: `vRecord` carries the
class name, whether the class mixes in `RenderEmptyMixin`, and the slot
list in declaration order.  `vBase` is any other object whose `str()`
either returns a string or raises; `vCustom` is an object with a
`to_xml()` method that either returns an XML fragment or raises.  The
`reprStr` arguments model Python `repr` of the object, used only in error
messages. -/

/-- A Python value as the serializer sees it. -/
inductive Value where
  | vNone
  | vStr (s : String)
  | vBase (reprStr : String) (render : Except String String)
  | vCustom (reprStr : String) (render : Except String String)
  | vRecord (typeName : String) (renderAll : Bool)
      (fields : List (String × Value))
  | vList (children : List Value)

/-- The exceptions of the serializer: `XMLGenerationError` (declared in
the schema module and imported by `to_xml.py`; its definition is not in
the snapshot, so it is modelled as an error tag carrying message and
`__cause__`) and any other exception, carrying its message. -/
inductive PyErr where
  | generic (msg : String)
  | xmlGenError (msg : String) (cause : Option PyErr)

/-- The single-quote character, for building message strings. -/
def sq : String := String.singleton (Char.ofNat 39)

/-- One escaped character of `html.escape` (`quote=True`): the five
XML-reserved characters. -/
def escapeChar (c : Char) : String :=
  if c = '&' then "&amp;"
  else if c = '<' then "&lt;"
  else if c = '>' then "&gt;"
  else if c = '"' then "&quot;"
  else if c = Char.ofNat 39 then "&#x27;"
  else String.singleton c

/-- `html.escape(s)`. -/
def htmlEscape (s : String) : String := String.join (s.toList.map escapeChar)

/-- `value is None or (isinstance(value, str) and value == "")`. -/
def isEmptyV : Value → Bool
  | .vNone => true
  | .vStr s => s = ""
  | _ => false

/-- Modelled `repr` of a value (containers abbreviated; only used inside
error messages). -/
def reprV : Value → String
  | .vNone => "None"
  | .vStr s => sq ++ s ++ sq
  | .vBase r _ => r
  | .vCustom r _ => r
  | .vRecord tn _ _ => tn ++ "(...)"
  | .vList _ => "[...]"

/-- The wrapping message of the `except` clause (lines 61-67):
`Failed to generate XML for tag '{tag}' in {type}. Value: {value!r}.
Error: {e}`. -/
def wrapMsg (tag tn rep m : String) : String :=
  "Failed to generate XML for tag " ++ sq ++ tag ++ sq ++ " in " ++ tn
    ++ ". Value: " ++ rep ++ ". Error: " ++ m

/-- The `except` clause: an `XMLGenerationError` re-raises unchanged; any
other exception is wrapped with field, type and value, keeping the
original as `__cause__` (`raise ... from e`). -/
def wrapErr (tag tn rep : String) : PyErr → PyErr
  | .xmlGenError m c => .xmlGenError m c
  | .generic m => .xmlGenError (wrapMsg tag tn rep m) (some (.generic m))

/-- `<tag>text</tag>`. -/
def elemTag (tag text : String) : String := "<" ++ tag ++ ">" ++ text ++ "</" ++ tag ++ ">"

mutual

/-- The non-empty branches of the field loop of `to_xml` (lines 39-60):
custom renderer, nested record, list, or escaped base value. -/
def renderCore (tag : String) (v : Value) : Except PyErr (List String) :=
  match v with
  | .vNone => .ok []
  | .vStr s => .ok [elemTag tag (htmlEscape s)]
  | .vBase _ r =>
    match r with
    | .ok s => .ok [elemTag tag (htmlEscape s)]
    | .error m => .error (.generic m)
  | .vCustom _ r =>
    match r with
    | .ok x => .ok [x]
    | .error m => .error (.generic m)
  | .vRecord tn2 ra2 fs =>
    match toXmlFields tn2 ra2 fs with
    | .ok inner => .ok (("<" ++ tag ++ ">") :: inner ++ ["</" ++ tag ++ ">"])
    | .error e => .error e
  | .vList cs =>
    match renderChildren cs with
    | .ok inner => .ok (("<" ++ tag ++ ">") :: inner ++ ["</" ++ tag ++ ">"])
    | .error e => .error e

/-- The list branch (lines 47-58): a child with `to_xml` is delegated to;
a slotted child is wrapped in its lower-cased class name and recursed
into; any other child yields nothing. -/
def renderChildren : List Value → Except PyErr (List String)
  | [] => .ok []
  | c :: rest =>
    let head : Except PyErr (List String) :=
      match c with
      | .vCustom _ r =>
        match r with
        | .ok x => .ok [x]
        | .error m => .error (.generic m)
      | .vRecord tn ra fs =>
        match toXmlFields tn ra fs with
        | .ok inner =>
          .ok (("<" ++ tn.toLower ++ ">") :: inner ++ ["</" ++ tn.toLower ++ ">"])
        | .error e => .error e
      | _ => .ok []
    match head with
    | .error e => .error e
    | .ok h =>
      match renderChildren rest with
      | .error e => .error e
      | .ok t => .ok (h ++ t)

/-- The field loop of `to_xml` (lines 27-67): each slot is rendered in
order inside a `try` whose handler wraps foreign exceptions. -/
def toXmlFields (tn : String) (ra : Bool) :
    List (String × Value) → Except PyErr (List String)
  | [] => .ok []
  | (tag, v) :: rest =>
    let this : Except PyErr (List String) :=
      if isEmptyV v then .ok (if ra then ["<" ++ tag ++ "/>"] else [])
      else renderCore tag v
    match this with
    | .error e => .error (wrapErr tag tn (reprV v) e)
    | .ok xs =>
      match toXmlFields tn ra rest with
      | .error e => .error e
      | .ok ys => .ok (xs ++ ys)

end

/-- One field iteration, factored out of `toXmlFields`: the `try` body
followed by the `except` wrapping. -/
def renderField (tn : String) (ra : Bool) (tag : String) (v : Value) :
    Except PyErr (List String) :=
  let this : Except PyErr (List String) :=
    if isEmptyV v then .ok (if ra then ["<" ++ tag ++ "/>"] else [])
    else renderCore tag v
  match this with
  | .error e => .error (wrapErr tag tn (reprV v) e)
  | .ok xs => .ok xs

/-- `to_xml(slotted_dc, root_tag)` on a record: optional cleaned root
wrapper around the rendered fields. -/
def to_xml (tn : String) (ra : Bool) (fields : List (String × Value))
    (root_tag : Option String) : Except PyErr (List String) :=
  let cleanTag (rt : String) : String :=
    let a := if rt.startsWith "<" then rt.drop 1 else rt
    if a.endsWith ">" then a.dropRight 1 else a
  match toXmlFields tn ra fields with
  | .error e => .error e
  | .ok inner =>
    match root_tag with
    | some rt => .ok (("<" ++ cleanTag rt ++ ">") :: inner ++ ["</" ++ cleanTag rt ++ ">"])
    | none => .ok inner

/-- `Support._clean_award_number` (`src/src/schema/dataclasses.py` lines
122-124): `self.awardnumber.replace(" ", "")`, then `(clean or "N/A")[:50]`.
Deleting every space of a string is filtering the space character out. -/
def clean_award_number (s : List Char) : List Char :=
  let clean_award_num := s.filter (fun c => c ≠ ' ')
  (if clean_award_num = [] then "N/A".toList else clean_award_num).take 50

/-- `PersonMonth.to_xml` (`src/src/schema/dataclasses.py` lines 88-90,
identical in the prototype schema): the f-string
`<personmonth year="{self.year}">{self.amount}</personmonth>`.
`amountStr` stands for Python's decimal rendering of the float amount. -/
def personmonth_to_xml (year amountStr : String) : String :=
  "<personmonth year=\"" ++ year ++ "\">" ++ amountStr ++ "</personmonth>"

end Pkg

namespace Proto

/-- Side condition for the two-section scenario: the paragraph
`"Title: " ++ t` is already clean, matches no name label and no section
header, carries exactly the one title label (ending right after the
single space), and its title text `t` is non-empty and free of leading or
trailing whitespace and emphasis characters. -/
def titleParagraphOK (t : List Char) : Prop :=
  clean_text ("Title: ".toList ++ t) = "Title: ".toList ++ t ∧
  nameIdGroup ("Title: ".toList ++ t) = none ∧
  section_header_match ("Title: ".toList ++ t) = false ∧
  title_found ("Title: ".toList ++ t) = true ∧
  findLabelMatches ("Title: ".toList ++ t) = [⟨0, 7, .project_title⟩] ∧
  stripStar t = t ∧
  pyStrip t = t ∧
  t ≠ []

instance (t : List Char) : Decidable (titleParagraphOK t) := by
  unfold titleParagraphOK; infer_instance

end Proto

/-- `C1` evaluation: the failing commitment row `["Year 1", "0.6 CM"]`
(after a skipped header row) contributes nothing, because
`YEAR_EXTRACTOR` is the four-digit search `\b(20\d{2})\b`, not a
digits-only extraction; the contrasting row `["2024-2025", "1.0 CM"]`
shows the four-digit rule (digits-only stripping would give
`"20242025"`). -/
theorem C1_table_row_year_requires_four_digit_match :
    (Proto.process_table
        [["Year".toList, "Calendar Months".toList],
         ["Year 1".toList, "0.6 CM".toList]]
        (Proto.reset_builder "ACTIVE".toList)).commitment = []
    ∧ Proto.year_extract "Year 1".toList = none
    ∧ (Proto.process_table
        [["Year".toList, "Calendar Months".toList],
         ["2024-2025".toList, "1.0 CM".toList]]
        (Proto.reset_builder "ACTIVE".toList)).commitment
      = [("2024".toList, "1.0 cm".toList)] := by
  refine ⟨by decide, by decide, by decide⟩

/-- `C2` evaluation: a day-granular date round-trips to `YYYY-MM-DD` and
an unparsable date yields the empty string, but a month-only date renders
as `YYYY-MM-%01` — the `%01` of the format string `"%Y-%m-%01"` is not a
valid `strftime` directive and is emitted literally — not as the claimed
`YYYY-MM-01`. -/
theorem C2_month_only_format_renders_percent01 :
    Proto.parse_date_str "3/2024".toList = "2024-03-%01".toList
    ∧ Proto.parse_date_str "3/24".toList = "2024-03-%01".toList
    ∧ Proto.parse_date_str "1/2/2024".toList = "2024-01-02".toList
    ∧ Proto.parse_date_str "01/02/24".toList = "2024-01-02".toList
    ∧ Proto.parse_date_str "garbage".toList = []
    ∧ "2024-03-%01".toList ≠ "2024-03-01".toList := by
  refine ⟨by decide, by decide, by decide, by decide, by decide, by decide⟩

/-- `C3` evaluation: finalizing a builder whose effort `"not_a_float"`
cannot be parsed raises the bare builtin `ValueError` of `float()` —
whose message carries the offending raw value but not the project title
`"Faulty Project"`, and which is not a domain error type. -/
theorem C3_finalize_error_is_bare_valueerror :
    Proto.finalize_support
        { Proto.reset_builder "ACTIVE".toList with
            projecttitle := "Faulty Project".toList
            commitment := [("2023".toList, "not_a_float".toList)] }
      = .error (.valueError (Proto.floatErrMsg "not_a_float".toList))
    ∧ containsSub (Proto.floatErrMsg "not_a_float".toList)
        "Faulty Project".toList = false
    ∧ containsSub (Proto.floatErrMsg "not_a_float".toList)
        "not_a_float".toList = true := by
  refine ⟨by decide, by decide, by decide⟩

/-- `C4` evaluation: the table `[["Year", "Calendar Month(s)"],
["2024", "2.0 CM"]]` does exclude its header row, but the extracted
effort is `"2.0 cm"` (only the token `calendar` is removed), so
finalization raises `ValueError` from `float("2.0 cm")` instead of
yielding a `PersonMonth` with amount `2.0`. -/
theorem C4_effort_cleanup_insufficient_finalize_raises :
    (Proto.process_table
        [["Year".toList, "Calendar Month(s)".toList],
         ["2024".toList, "2.0 CM".toList]]
        (Proto.reset_builder "ACTIVE".toList)).commitment
      = [("2024".toList, "2.0 cm".toList)]
    ∧ Proto.finalize_support
        (Proto.process_table
          [["Year".toList, "Calendar Month(s)".toList],
           ["2024".toList, "2.0 CM".toList]]
          (Proto.reset_builder "ACTIVE".toList))
      = .error (.valueError (Proto.floatErrMsg "2.0 cm".toList)) := by
  refine ⟨by decide, by decide⟩

/-- `C5` counterexample: a matched `Major Goals:` label whose builder
already holds objectives text `"Old"` ends with objectives `"New"` — the
labelled value replaced the field instead of being appended as
`"Old New"`. -/
theorem C5_counterexample_goals_label_replaces :
    (Proto.process_paragraph "Major Goals: New".toList
        { Proto.reset_builder "ACTIVE".toList with
            overallobjectives := "Old".toList }
        (some .major_goals)).1.overallobjectives = "New".toList
    ∧ "New".toList ≠ "Old New".toList := by
  refine ⟨by decide, by decide⟩

/-- `C5` (amended): every matched label's non-empty trimmed value is
stored with replace semantics — the goals/objectives and overlap fields
included; the space-joined append happens only for continuation text
(`append = True`), where it applies to any text-backed field with
existing content; and the date label's value is only ever parsed into
`startdate`/`enddate`, never appended. -/
theorem C5_matched_labels_replace_continuation_appends :
    ∀ (b : Proto.Builder) (v : List Char), pyStrip v = v → v ≠ [] →
    (Proto.update_field b .project_title v false).projecttitle = v
    ∧ (Proto.update_field b .project_number v false).awardnumber = v
    ∧ (Proto.update_field b .source v false).supportsource = v
    ∧ (Proto.update_field b .place v false).location = v
    ∧ (Proto.update_field b .amount v false).awardamount = v
    ∧ (Proto.update_field b .major_goals v false).overallobjectives = v
    ∧ (Proto.update_field b .overlap v false).potentialoverlap = v
    ∧ Proto.update_field b .dates v true = b
    ∧ Proto.update_field b .dates v false
        = { b with startdate := (Proto.extract_dates v).1,
                   enddate := (Proto.extract_dates v).2 }
    ∧ (b.overallobjectives ≠ [] →
        (Proto.update_field b .major_goals v true).overallobjectives
          = b.overallobjectives ++ ' ' :: v)
    ∧ (b.potentialoverlap ≠ [] →
        (Proto.update_field b .overlap v true).potentialoverlap
          = b.potentialoverlap ++ ' ' :: v)
    ∧ (∀ (text : List Char) (b' : Proto.Builder) (k : Option Proto.LabelKey)
          (m : Proto.MatchSpan),
        Proto.findLabelMatches text = [m] → m.start = 0 →
        Proto.process_paragraph text b' k
          = (Proto.update_field b' m.key
              (stripStar (sliceL text m.stop text.length)) false, some m.key)) := by
  intro b v h1 h2
  refine ⟨?_, ?_, ?_, ?_, ?_, ?_, ?_, ?_, ?_, ?_, ?_, ?_⟩
  · simp [Proto.update_field, Proto.set_val, h1, h2]
  · simp [Proto.update_field, Proto.set_val, h1, h2]
  · simp [Proto.update_field, Proto.set_val, h1, h2]
  · simp [Proto.update_field, Proto.set_val, h1, h2]
  · simp [Proto.update_field, Proto.set_val, h1, h2]
  · simp [Proto.update_field, Proto.set_val, h1, h2]
  · simp [Proto.update_field, Proto.set_val, h1, h2]
  · simp [Proto.update_field, h1, h2]
  · simp [Proto.update_field, h1, h2]
  · intro hcur; simp [Proto.update_field, Proto.set_val, h1, h2, hcur]
  · intro hcur; simp [Proto.update_field, Proto.set_val, h1, h2, hcur]
  · intro text b' k m hm hs
    simp only [Proto.process_paragraph, hm, hs]
    simp [Proto.processMatches]

/-- `C5` witness: the amended semantics evaluated at a concrete builder
and value. -/
theorem C5_matched_labels_replace_witness :
    (Proto.update_field (Proto.reset_builder "ACTIVE".toList)
        .major_goals "X".toList false).overallobjectives = "X".toList
    ∧ Proto.process_paragraph "Title: P".toList
        (Proto.reset_builder "ACTIVE".toList) none
      = (Proto.update_field (Proto.reset_builder "ACTIVE".toList)
          .project_title
          (stripStar (sliceL "Title: P".toList 7 "Title: P".toList.length))
          false, some .project_title) := by
  have h := C5_matched_labels_replace_continuation_appends
    (Proto.reset_builder "ACTIVE".toList) "X".toList (by decide) (by decide)
  refine ⟨h.2.2.2.2.2.1, ?_⟩
  exact h.2.2.2.2.2.2.2.2.2.2.2 "Title: P".toList
    (Proto.reset_builder "ACTIVE".toList) none ⟨0, 7, .project_title⟩
    (by decide) (by decide)

/-- The value span of the single title label in `"Title: " ++ t` is `t`
itself. -/
theorem titleSliceAux (t : List Char) :
    sliceL ("Title: ".toList ++ t) 7 ("Title: ".toList ++ t).length = t := by
  have h7 : ("Title: ".toList).length = 7 := by decide
  unfold sliceL
  rw [← h7, List.drop_left, List.length_append, h7]
  simp

/-- A title paragraph is never empty. -/
theorem titleParaNeNil (t : List Char) : ("Title: ".toList ++ t) ≠ [] := by
  simp

/-- `_parse_name` leaves the state alone when the name label is absent. -/
theorem parseNameNone (text : List Char) (np : Proto.NameParts)
    (h : Proto.nameIdGroup text = none) :
    Proto.parse_name text np = none := by
  simp [Proto.parse_name, h]

/-- One loop iteration on a clean title paragraph while no record is
active: a fresh builder for the current section is started, the title is
stored, the record is marked active and the continuation context is reset
to the title field. -/
theorem stepTitlePara (st : Proto.PState) (t : List Char)
    (h : Proto.titleParagraphOK t) (hba : st.builder_active = false) :
    Proto.stepBlock st (.para ("Title: ".toList ++ t))
      = .ok { st with
          builder :=
            { Proto.reset_builder st.current_section with projecttitle := t }
          builder_active := true
          last_field_key := some .project_title } := by
  obtain ⟨hc, hn, hs, ht, hm, hst, hp, hne⟩ := h
  simp only [Proto.stepBlock, hc, if_neg (titleParaNeNil t),
    parseNameNone _ _ hn, hs, ht, hba, Bool.false_eq_true, if_false, if_true,
    bind, Except.bind, pure, Except.pure, Bool.not_true]
  rw [Proto.process_paragraph, hm]
  simp only [gt_iff_lt, Nat.lt_irrefl, if_false, Proto.processMatches,
    titleSliceAux t, hst]
  rw [Proto.update_field]
  simp only [hp, if_neg hne]
  rfl

/-- One loop iteration on a `PENDING` section header while a record is
active: the record is finalized and emitted, the section switches to
`PENDING`, and a fresh inactive builder is installed. -/
theorem stepPendingPara (st : Proto.PState) (s : Proto.Support)
    (hba : st.builder_active = true)
    (hfin : Proto.finalize_support st.builder = .ok s) :
    Proto.stepBlock st (.para "PENDING".toList)
      = .ok { st with
          supports := st.supports ++ [s]
          current_section := "PENDING".toList
          builder := Proto.reset_builder "PENDING".toList
          builder_active := false } := by
  simp only [Proto.stepBlock,
    (show Proto.clean_text "PENDING".toList = "PENDING".toList by decide),
    (show Proto.nameIdGroup "PENDING".toList = none by decide),
    parseNameNone,
    (show Proto.section_header_match "PENDING".toList = true by decide),
    (show pyUpper "PENDING".toList = "PENDING".toList by decide),
    (show containsSub "PENDING".toList "PENDING".toList = true by decide),
    hba, hfin, if_true, bind, Except.bind, pure, Except.pure]
  rw [if_neg (show ¬ ("PENDING".toList = ([] : List Char)) by decide)]

/-- Finalizing a builder that only captured a title cannot fail: its
commitment list is empty. -/
theorem finalizeTitleOnly (sect t : List Char) :
    Proto.finalize_support
        { Proto.reset_builder sect with projecttitle := t }
      = .ok (Proto.mkSupport
          { Proto.reset_builder sect with projecttitle := t } []) := by
  simp [Proto.finalize_support, Proto.buildComs, Proto.reset_builder]

/-- The finalized `Support` of a title-only builder in the `ACTIVE`
section. -/
theorem mkSupportTitleActive (t : List Char) :
    Proto.mkSupport
        { Proto.reset_builder "ACTIVE".toList with projecttitle := t } []
      = { projecttitle := t.take 300, awardnumber := [], supportsource := [],
          location := [], contributiontype := "award".toList, awardamount := [],
          inkinddescription := [], overallobjectives := [],
          potentialoverlap := "None".toList, startdate := [],
          enddate := [], supporttype := "current".toList, commitment := [] } := by
  simp [Proto.mkSupport, Proto.reset_builder,
    (show ("None".toList : List Char).take 5000 = "None".toList by decide)]

/-- The finalized `Support` of a title-only builder in the `PENDING`
section. -/
theorem mkSupportTitlePending (t : List Char) :
    Proto.mkSupport
        { Proto.reset_builder "PENDING".toList with projecttitle := t } []
      = { projecttitle := t.take 300, awardnumber := [], supportsource := [],
          location := [], contributiontype := "award".toList, awardamount := [],
          inkinddescription := [], overallobjectives := [],
          potentialoverlap := "None".toList, startdate := [],
          enddate := [], supporttype := "pending".toList, commitment := [] } := by
  simp [Proto.mkSupport, Proto.reset_builder,
    (show ("None".toList : List Char).take 5000 = "None".toList by decide)]

/-- `C6`: a document whose blocks are a name line, an `ACTIVE` header
with one project-title paragraph, then a `PENDING` header with one
project-title paragraph, parses to exactly two `Support` records — the
first with `supporttype` `current`, the second with `supporttype`
`pending` — and every field of the second record has its fresh-builder
value (no text leaked through the continuation context, which is reset
when each new record starts). -/
theorem C6_two_sections_reset_context (t1 t2 : List Char)
    (h1 : Proto.titleParagraphOK t1) (h2 : Proto.titleParagraphOK t2) :
    Proto.parse_docx
        [.para "Name of Individual: Doe, John".toList,
         .para "ACTIVE".toList,
         .para ("Title: ".toList ++ t1),
         .para "PENDING".toList,
         .para ("Title: ".toList ++ t2)]
      = .ok ⟨⟨⟨"John".toList, [], "Doe".toList⟩⟩, [],
          [{ projecttitle := t1.take 300, awardnumber := [], supportsource := [],
             location := [], contributiontype := "award".toList, awardamount := [],
             inkinddescription := [], overallobjectives := [],
             potentialoverlap := "None".toList, startdate := [], enddate := [],
             supporttype := "current".toList, commitment := [] },
           { projecttitle := t2.take 300, awardnumber := [], supportsource := [],
             location := [], contributiontype := "award".toList, awardamount := [],
             inkinddescription := [], overallobjectives := [],
             potentialoverlap := "None".toList, startdate := [], enddate := [],
             supporttype := "pending".toList, commitment := [] }]⟩ := by
  have hs1 :
      Proto.stepBlock Proto.initState
          (.para "Name of Individual: Doe, John".toList)
        = .ok (⟨⟨"John".toList, [], "Doe".toList⟩, [], "ACTIVE".toList,
            Proto.reset_builder "ACTIVE".toList, false, none⟩ : Proto.PState) := by
    decide
  have hs2 :
      Proto.stepBlock
          (⟨⟨"John".toList, [], "Doe".toList⟩, [], "ACTIVE".toList,
            Proto.reset_builder "ACTIVE".toList, false, none⟩ : Proto.PState)
          (.para "ACTIVE".toList)
        = .ok (⟨⟨"John".toList, [], "Doe".toList⟩, [], "ACTIVE".toList,
            Proto.reset_builder "ACTIVE".toList, false, none⟩ : Proto.PState) := by
    decide
  have hs3 :
      Proto.stepBlock
          (⟨⟨"John".toList, [], "Doe".toList⟩, [], "ACTIVE".toList,
            Proto.reset_builder "ACTIVE".toList, false, none⟩ : Proto.PState)
          (.para ("Title: ".toList ++ t1))
        = .ok (⟨⟨"John".toList, [], "Doe".toList⟩, [], "ACTIVE".toList,
            { Proto.reset_builder "ACTIVE".toList with projecttitle := t1 },
            true, some .project_title⟩ : Proto.PState) :=
    stepTitlePara _ t1 h1 rfl
  have hfin1 :
      Proto.finalize_support
          { Proto.reset_builder "ACTIVE".toList with projecttitle := t1 }
        = .ok ({ projecttitle := t1.take 300, awardnumber := [],
                  supportsource := [], location := [],
                  contributiontype := "award".toList, awardamount := [],
                  inkinddescription := [], overallobjectives := [],
                  potentialoverlap := "None".toList, startdate := [],
                  enddate := [], supporttype := "current".toList,
                  commitment := [] } : Proto.Support) := by
    rw [finalizeTitleOnly, mkSupportTitleActive]
  have hs4 :
      Proto.stepBlock
          (⟨⟨"John".toList, [], "Doe".toList⟩, [], "ACTIVE".toList,
            { Proto.reset_builder "ACTIVE".toList with projecttitle := t1 },
            true, some .project_title⟩ : Proto.PState)
          (.para "PENDING".toList)
        = .ok (⟨⟨"John".toList, [], "Doe".toList⟩,
            [{ projecttitle := t1.take 300, awardnumber := [],
               supportsource := [], location := [],
               contributiontype := "award".toList, awardamount := [],
               inkinddescription := [], overallobjectives := [],
               potentialoverlap := "None".toList, startdate := [], enddate := [],
               supporttype := "current".toList, commitment := [] }],
            "PENDING".toList, Proto.reset_builder "PENDING".toList, false,
            some .project_title⟩ : Proto.PState) :=
    stepPendingPara _ _ rfl hfin1
  have hs5 :
      Proto.stepBlock
          (⟨⟨"John".toList, [], "Doe".toList⟩,
            [{ projecttitle := t1.take 300, awardnumber := [],
               supportsource := [], location := [],
               contributiontype := "award".toList, awardamount := [],
               inkinddescription := [], overallobjectives := [],
               potentialoverlap := "None".toList, startdate := [], enddate := [],
               supporttype := "current".toList, commitment := [] }],
            "PENDING".toList, Proto.reset_builder "PENDING".toList, false,
            some .project_title⟩ : Proto.PState)
          (.para ("Title: ".toList ++ t2))
        = .ok (⟨⟨"John".toList, [], "Doe".toList⟩,
            [{ projecttitle := t1.take 300, awardnumber := [],
               supportsource := [], location := [],
               contributiontype := "award".toList, awardamount := [],
               inkinddescription := [], overallobjectives := [],
               potentialoverlap := "None".toList, startdate := [], enddate := [],
               supporttype := "current".toList, commitment := [] }],
            "PENDING".toList,
            { Proto.reset_builder "PENDING".toList with projecttitle := t2 },
            true, some .project_title⟩ : Proto.PState) :=
    stepTitlePara _ t2 h2 rfl
  have hfin2 :
      Proto.finalize_support
          { Proto.reset_builder "PENDING".toList with projecttitle := t2 }
        = .ok ({ projecttitle := t2.take 300, awardnumber := [],
                  supportsource := [], location := [],
                  contributiontype := "award".toList, awardamount := [],
                  inkinddescription := [], overallobjectives := [],
                  potentialoverlap := "None".toList, startdate := [],
                  enddate := [], supporttype := "pending".toList,
                  commitment := [] } : Proto.Support) := by
    rw [finalizeTitleOnly, mkSupportTitlePending]
  unfold Proto.parse_docx
  simp only [Proto.runBlocks, hs1, hs2, hs3, hs4, hs5]
  simp only [bind, Except.bind, pure, Except.pure, hfin2,
    (show Proto.mkName ⟨"John".toList, [], "Doe".toList⟩
        = .ok ⟨"John".toList, [], "Doe".toList⟩ by decide)]
  rfl

/-- `C6` witness: the two-section scenario at concrete titles. -/
theorem C6_two_sections_reset_context_witness :
    Proto.parse_docx
        [.para "Name of Individual: Doe, John".toList,
         .para "ACTIVE".toList,
         .para ("Title: ".toList ++ "Project Alpha".toList),
         .para "PENDING".toList,
         .para ("Title: ".toList ++ "Project Beta".toList)]
      = .ok ⟨⟨⟨"John".toList, [], "Doe".toList⟩⟩, [],
          [{ projecttitle := "Project Alpha".toList.take 300,
             awardnumber := [], supportsource := [],
             location := [], contributiontype := "award".toList,
             awardamount := [], inkinddescription := [],
             overallobjectives := [],
             potentialoverlap := "None".toList, startdate := [], enddate := [],
             supporttype := "current".toList, commitment := [] },
           { projecttitle := "Project Beta".toList.take 300,
             awardnumber := [], supportsource := [],
             location := [], contributiontype := "award".toList,
             awardamount := [], inkinddescription := [],
             overallobjectives := [],
             potentialoverlap := "None".toList, startdate := [], enddate := [],
             supporttype := "pending".toList, commitment := [] }]⟩ :=
  C6_two_sections_reset_context "Project Alpha".toList "Project Beta".toList
    (by decide) (by decide)

/-- `C7`: for a field whose value is absent (`None`) or the empty string,
the serializer emits a self-closing element exactly when the record's
type is tagged render-empty and emits nothing otherwise, while a
non-empty field renders independently of the policy flag; the field loop
processes each slot through exactly this per-field logic. -/
theorem C7_empty_field_policy :
    ∀ (tn tag : String) (v : Pkg.Value),
    (Pkg.isEmptyV v = true →
      Pkg.renderField tn true tag v = .ok ["<" ++ tag ++ "/>"]
      ∧ Pkg.renderField tn false tag v = .ok [])
    ∧ (Pkg.isEmptyV v = false →
      Pkg.renderField tn true tag v = Pkg.renderField tn false tag v)
    ∧ (∀ (ra : Bool) (rest : List (String × Pkg.Value)),
      Pkg.toXmlFields tn ra ((tag, v) :: rest)
        = match Pkg.renderField tn ra tag v with
          | .error e => .error e
          | .ok xs =>
            match Pkg.toXmlFields tn ra rest with
            | .error e => .error e
            | .ok ys => .ok (xs ++ ys)) := by
  intro tn tag v
  refine ⟨?_, ?_, ?_⟩
  · intro h
    constructor <;> simp [Pkg.renderField, h]
  · intro h
    simp [Pkg.renderField, h]
  · intro ra rest
    simp only [Pkg.toXmlFields, Pkg.renderField]
    cases hv : (if Pkg.isEmptyV v = true then
        Except.ok (ε := Pkg.PyErr)
          (if ra = true then ["<" ++ tag ++ "/>"] else [])
      else Pkg.renderCore tag v) with
    | error e => rfl
    | ok xs => rfl

/-- `C7` witness: the policy evaluated on concrete empty and non-empty
fields. -/
theorem C7_empty_field_policy_witness :
    Pkg.renderField "Support" true "startdate" (.vStr "") = .ok ["<startdate/>"]
    ∧ Pkg.renderField "Name" false "middlename" .vNone = .ok []
    ∧ Pkg.renderField "Support" true "projecttitle" (.vStr "X")
        = Pkg.renderField "Support" false "projecttitle" (.vStr "X") :=
  ⟨((C7_empty_field_policy "Support" "startdate" (.vStr "")).1 rfl).1,
   ((C7_empty_field_policy "Name" "middlename" .vNone).1 rfl).2,
   (C7_empty_field_policy "Support" "projecttitle" (.vStr "X")).2.1 rfl⟩

/-- `C8`: when rendering a field raises, the serializer re-raises an
`XMLGenerationError` whose message names the field tag, the owning
record's type and the attempted value's `repr`, with the original
exception kept as the cause; an `XMLGenerationError` arriving from a
nested call propagates unchanged.  `pre` is any prefix of fields that
renders successfully before the offending field. -/
theorem C8_serialization_error_wrapping :
    ∀ (tn : String) (ra : Bool) (pre : List (String × Pkg.Value))
      (tag : String) (v : Pkg.Value) (post : List (String × Pkg.Value))
      (xs : List String),
    Pkg.toXmlFields tn ra pre = .ok xs →
    Pkg.isEmptyV v = false →
    (∀ m : String, Pkg.renderCore tag v = .error (.generic m) →
      Pkg.toXmlFields tn ra (pre ++ (tag, v) :: post)
        = .error (.xmlGenError (Pkg.wrapMsg tag tn (Pkg.reprV v) m)
            (some (.generic m))))
    ∧ (∀ (m : String) (c : Option Pkg.PyErr),
      Pkg.renderCore tag v = .error (.xmlGenError m c) →
      Pkg.toXmlFields tn ra (pre ++ (tag, v) :: post)
        = .error (.xmlGenError m c)) := by
  intro tn ra pre tag v post
  induction pre with
  | nil =>
    intro xs _ hne
    constructor
    · intro m hm
      simp [Pkg.toXmlFields, hne, hm, Pkg.wrapErr]
    · intro m c hm
      simp [Pkg.toXmlFields, hne, hm, Pkg.wrapErr]
  | cons f pre ih =>
    intro xs hpre hne
    obtain ⟨tag0, v0⟩ := f
    simp only [Pkg.toXmlFields] at hpre
    cases hv0 : (if Pkg.isEmptyV v0 = true then
        Except.ok (ε := Pkg.PyErr)
          (if ra = true then ["<" ++ tag0 ++ "/>"] else [])
      else Pkg.renderCore tag0 v0) with
    | error e =>
      rw [hv0] at hpre
      cases hpre
    | ok xs1 =>
      rw [hv0] at hpre
      cases hrest : Pkg.toXmlFields tn ra pre with
      | error e =>
        rw [hrest] at hpre
        cases hpre
      | ok ys =>
        have hmain := ih ys hrest hne
        constructor
        · intro m hm
          have h2 := hmain.1 m hm
          rw [List.cons_append]
          simp only [Pkg.toXmlFields, hv0]
          rw [h2]
        · intro m c hm
          have h2 := hmain.2 m c hm
          rw [List.cons_append]
          simp only [Pkg.toXmlFields, hv0]
          rw [h2]

/-- `C8` witness: the mock record of `test_errors.py` — a good field
followed by one whose `str()` raises — produces the wrapped error. -/
theorem C8_serialization_error_wrapping_witness :
    Pkg.toXmlFields "MockSlotted" false
        [("good", .vStr "x"),
         ("faulty_tag", .vBase "BadValue()" (.error "String conversion failed"))]
      = .error (.xmlGenError
          (Pkg.wrapMsg "faulty_tag" "MockSlotted" "BadValue()"
            "String conversion failed")
          (some (.generic "String conversion failed"))) :=
  (C8_serialization_error_wrapping "MockSlotted" false [("good", .vStr "x")]
      "faulty_tag" (.vBase "BadValue()" (.error "String conversion failed")) []
      ["<good>x</good>"] rfl rfl).1 "String conversion failed" rfl

/-- `C9`: the finalized award number has every space removed, is never
empty (a blank result becomes the literal `N/A` before the truncation to
50 characters), and a builder with no captured project number yields
exactly `N/A`. -/
theorem C9_award_number_clean :
    ∀ s : List Char,
    Pkg.clean_award_number s ≠ []
    ∧ ' ' ∉ Pkg.clean_award_number s
    ∧ (Pkg.clean_award_number s).length ≤ 50
    ∧ (s.filter (fun c => c ≠ ' ') = [] →
        Pkg.clean_award_number s = "N/A".toList)
    ∧ Pkg.clean_award_number [] = "N/A".toList := by
  intro s
  have hcore : Pkg.clean_award_number s
      = (if s.filter (fun c => c ≠ ' ') = [] then "N/A".toList
         else s.filter (fun c => c ≠ ' ')).take 50 := rfl
  by_cases h : s.filter (fun c => c ≠ ' ') = []
  · have hP : Pkg.clean_award_number s = "N/A".toList := by
      rw [hcore, if_pos h]; decide
    exact ⟨by rw [hP]; decide, by rw [hP]; decide, by rw [hP]; decide,
           fun _ => hP, by decide⟩
  · have hP : Pkg.clean_award_number s = (s.filter (fun c => c ≠ ' ')).take 50 := by
      rw [hcore, if_neg h]
    refine ⟨?_, ?_, ?_, fun hcon => absurd hcon h, by decide⟩
    · rw [hP]
      intro hcon
      rcases List.take_eq_nil_iff.mp hcon with h50 | hnil
      · exact absurd h50 (by decide)
      · exact h hnil
    · rw [hP]
      intro hmem
      have hm2 := List.take_subset _ _ hmem
      have hp := List.of_mem_filter hm2
      simp at hp
    · rw [hP, List.length_take]
      exact Nat.min_le_left _ _

/-- `C9` witness: an all-space award number cleans to `N/A`. -/
theorem C9_award_number_clean_witness :
    Pkg.clean_award_number "   ".toList = "N/A".toList :=
  (C9_award_number_clean "   ".toList).2.2.2.1 (by decide)

/-- `C10`: `PersonMonth.to_xml` is exactly the interpolated template
`<personmonth year="YEAR">AMOUNT</personmonth>` with no XML escaping of
the year, so a year containing a double quote is emitted raw — unlike
what `html.escape` would produce. -/
theorem C10_personmonth_xml_verbatim :
    (∀ (y a : String),
      Pkg.personmonth_to_xml y a
        = "<personmonth year=\"" ++ y ++ "\">" ++ a ++ "</personmonth>")
    ∧ (Pkg.personmonth_to_xml "20\"24" "2.0").toList.count '"' = 3
    ∧ Pkg.personmonth_to_xml "20\"24" "2.0"
        ≠ "<personmonth year=\"" ++ Pkg.htmlEscape "20\"24"
            ++ "\">2.0</personmonth>" := by
  refine ⟨fun y a => rfl, by decide, by decide⟩
